import Mathlib

/-!
Verification development for the json-to-sql-migration library.

The definitions below are a shallow embedding of `src/index.ts` (diff engine,
migration synthesizer, dialect type map, access-control translator) and of the
data model described by `src/schemas.ts`.

Modelling conventions:

* JSON values (`AnyExpression` / `Condition` trees from json-to-sql-parser)
  are modelled by the inductive type `Jx`. JavaScript objects are
  insertion-ordered key/value lists.
* The external expression/condition compiler (`parseExpression`,
  `parseCondition` from json-to-sql-parser) is an explicit parameter of type
  `ParserFns`; each function returns `Except String String` (an exception or
  the compiled SQL text), matching the contract in the spec.
* Thrown JavaScript exceptions are modelled by `Except String`; a helper
  `collectE` plays the role of a loop that aborts on the first exception.
* `Date.now()` (used by the column-rebuild path of `generateAlterColumnSQL`)
  is an ambient-state read; it is modelled by an explicit `now : Nat`
  argument threaded into the functions that read the clock.
* `String.prototype.toLowerCase` / `toUpperCase` are modelled by per-character
  ASCII case maps (`asciiLower` / `asciiUpper`); every string they are applied
  to in the source is ASCII.
* The source's `deepEqual` utility is transcribed directly (key-count check
  plus per-key lookup for objects, element-wise comparison for arrays,
  strict equality for primitives).
-/

namespace Migration

/-- Single-quote character, written via its code point. -/
def quoteChar : Char := Char.ofNat 39

/-- The string consisting of one single quote. -/
def singleQuote : String := String.singleton quoteChar

/-- Models `value.replace(/'/g, "''")`: every single quote is doubled. -/
def escapeSingleQuotes (s : String) : String :=
  String.mk (s.data.flatMap (fun c => if c = quoteChar then [quoteChar, quoteChar] else [c]))

/-- Models `String.prototype.toLowerCase` for the ASCII strings the source applies it to. -/
def asciiLower (s : String) : String := String.mk (s.data.map Char.toLower)

/-- Models `String.prototype.toUpperCase` for the ASCII strings the source applies it to. -/
def asciiUpper (s : String) : String := String.mk (s.data.map Char.toUpper)

/-- JSON values: the shape of `AnyExpression` / `Condition` documents handled
by the library. Objects are insertion-ordered association lists (JavaScript
objects cannot contain duplicate keys). Numeric literals are modelled as
integers. -/
inductive Jx where
  | str (s : String)
  | num (n : Int)
  | bool (b : Bool)
  | null
  | arr (items : List Jx)
  | obj (entries : List (String × Jx))

/-- Key lookup in a JavaScript object (`o[k]`), first match. -/
def jxLookup (k : String) : List (String × Jx) → Option Jx
  | [] => none
  | (k', v) :: rest => if k' == k then some v else jxLookup k rest

mutual

/-- Transcription of the source's `deepEqual` utility restricted to JSON
values: strict equality on primitives, same key count plus per-key
recursive comparison for objects, element-wise comparison for arrays.
(`null` differs from every non-`null` value, matching the `a == null`
early return; a mixed array/object comparison never arises from
schema-validated documents and is modelled as `false`.) -/
def deepEqual : Jx → Jx → Bool
  | .str a, .str b => a == b
  | .num a, .num b => a == b
  | .bool a, .bool b => a == b
  | .null, .null => true
  | .arr a, .arr b => deepEqualList a b
  | .obj a, .obj b => (a.length == b.length) && deepEqualObjGo a b
  | _, _ => false

/-- Array comparison inside `deepEqual`: same length and element-wise equality
(arrays are compared through their index keys in the source). -/
def deepEqualList : List Jx → List Jx → Bool
  | [], [] => true
  | a :: as, b :: bs => deepEqual a b && deepEqualList as bs
  | _, _ => false

/-- The per-key loop of `deepEqual` on objects: every key of the first object
must be present in the second and map to a deep-equal value. -/
def deepEqualObjGo : List (String × Jx) → List (String × Jx) → Bool
  | [], _ => true
  | (k, v) :: rest, b =>
    (match jxLookup k b with
     | some w => deepEqual v w
     | none => false) && deepEqualObjGo rest b

end

/-- Models `deepEqual` on two possibly-`undefined` arguments (e.g. the
`default` attribute of two fields): `undefined === undefined` is `true`,
`undefined` versus a value is `false`. -/
def optionDeepEqual : Option Jx → Option Jx → Bool
  | none, none => true
  | some a, some b => deepEqual a b
  | _, _ => false

/-- Function-name canonicalization inside `normalizeExpression`:
`funcName.toLowerCase() === "now" ? "NOW" : funcName.toUpperCase()`. -/
def normalizeFuncName (n : String) : String :=
  if asciiLower n == "now" then ("NOW") else asciiUpper n

/-- Models the `"$func" in expression` test. -/
def hasFuncKey (kvs : List (String × Jx)) : Bool :=
  kvs.any (fun p => p.1 == "$func")

mutual

/-- Transcription of the source's `normalizeExpression`: an object carrying a
`$func` key is rebuilt as a single-key `$func` object whose function names
are canonicalized and whose argument lists are normalized recursively; any
other object has its object-valued (or array-valued) entries normalized;
all other values (primitives and top-level arrays) pass through unchanged. -/
def normalizeExpression : Jx → Jx
  | .obj kvs => if hasFuncKey kvs then normalizeFuncObj kvs else .obj (normalizeObjEntries kvs)
  | e => e

/-- Finds the `$func` entry (scanning models the `expression.$func` access;
objects have unique keys) and rebuilds it with normalized entries. A
non-object `$func` payload yields no entries (`Object.entries` on a
non-object produces none for the values appearing here). -/
def normalizeFuncObj : List (String × Jx) → Jx
  | [] => .obj [("$func", .obj [])]
  | (k, .obj fl) :: rest =>
    if k == "$func" then .obj [("$func", .obj (normalizeFuncEntries fl))] else normalizeFuncObj rest
  | (k, _) :: rest =>
    if k == "$func" then .obj [("$func", .obj [])] else normalizeFuncObj rest

/-- Per-function-entry normalization: uppercase the name, normalize each
argument of the argument array. -/
def normalizeFuncEntries : List (String × Jx) → List (String × Jx)
  | [] => []
  | (n, .arr args) :: rest =>
    (normalizeFuncName n, .arr (normalizeJxList args)) :: normalizeFuncEntries rest
  | (n, v) :: rest => (normalizeFuncName n, v) :: normalizeFuncEntries rest

/-- `args.map((arg) => normalizeExpression(arg))`. -/
def normalizeJxList : List Jx → List Jx
  | [] => []
  | a :: as => normalizeExpression a :: normalizeJxList as

/-- The non-`$func` object branch: entries whose value is an object or an
array are normalized recursively (the `typeof value === "object"` test);
other values are kept. -/
def normalizeObjEntries : List (String × Jx) → List (String × Jx)
  | [] => []
  | (k, Jx.obj kvs) :: rest => (k, normalizeExpression (Jx.obj kvs)) :: normalizeObjEntries rest
  | (k, Jx.arr l) :: rest => (k, normalizeExpression (Jx.arr l)) :: normalizeObjEntries rest
  | (k, v) :: rest => (k, v) :: normalizeObjEntries rest

end

/-- Well-formedness of a JSON value as the image of a real JavaScript value:
objects never contain duplicate keys. Every document built by a JavaScript
caller satisfies this. -/
inductive JxWF : Jx → Prop where
  | str (s : String) : JxWF (.str s)
  | num (n : Int) : JxWF (.num n)
  | bool (b : Bool) : JxWF (.bool b)
  | null : JxWF .null
  | arr (l : List Jx) (h : ∀ x ∈ l, JxWF x) : JxWF (.arr l)
  | obj (kvs : List (String × Jx)) (hk : (kvs.map Prod.fst).Nodup)
      (h : ∀ p ∈ kvs, JxWF p.2) : JxWF (.obj kvs)

/-- The three target dialects (the `Dialect` enumeration of json-to-sql-parser). -/
inductive Dialect where
  | POSTGRESQL
  | SQLITE_MINIMAL
  | SQLITE_EXTENSIONS
deriving DecidableEq

/-- Foreign-key descriptor of a field (`foreignKey` in the data model schema). -/
structure ForeignKey where
  table : String
  field : String
  onDelete : Option String := none
  onUpdate : Option String := none
deriving DecidableEq

/-- A field of the data model. `type` ranges over the `fieldTypes` enumeration
(`"string" | "number" | "boolean" | "object" | "date" | "datetime" | "uuid"`);
optional attributes are `Option` (absent = `undefined`). -/
structure Field where
  name : String
  type : String
  nonNullable : Option Bool := none
  primaryKey : Option Bool := none
  default : Option Jx := none
  foreignKey : Option ForeignKey := none

/-- The four per-operation access-control conditions of a table. -/
structure AccessControl where
  read : Jx
  create : Jx
  update : Jx
  delete : Jx

/-- A table of the data model. -/
structure Table where
  name : String
  fields : List Field
  accessControl : AccessControl

/-- A schema snapshot (`DataModel`). -/
structure DataModel where
  tables : List Table

/-- Models `deepEqual(oldTable.accessControl, newTable.accessControl)`:
both objects always carry exactly the keys read/create/update/delete, so
the comparison reduces to the four conditions. -/
def acDeepEqual (a b : AccessControl) : Bool :=
  deepEqual a.read b.read && deepEqual a.create b.create &&
  deepEqual a.update b.update && deepEqual a.delete b.delete

/-- Per-attribute from/to change record of one field (`FieldChange`).
Pairs are `(from, to)`. An absent key is `none`. -/
structure FieldChange where
  type : Option (String × String) := none
  nonNullable : Option (Bool × Bool) := none
  primaryKey : Option (Bool × Bool) := none
  default : Option (Option Jx × Option Jx) := none
  foreignKey : Option (Option ForeignKey × Option ForeignKey) := none

/-- Models `Object.keys(changes).length > 0` being false. -/
def FieldChange.isEmpty (c : FieldChange) : Bool :=
  c.type.isNone && c.nonNullable.isNone && c.primaryKey.isNone &&
  c.default.isNone && c.foreignKey.isNone

/-- One entry of `fieldsModified`. -/
structure FieldMod where
  field : Field
  changes : FieldChange

/-- A modification record for one table kept in both snapshots. -/
structure TableModification where
  tableName : String
  fieldsAdded : List Field
  fieldsRemoved : List Field
  fieldsModified : List FieldMod
  accessControlChanged : Bool

/-- The table-level diff. -/
structure TableDiff where
  added : List Table
  removed : List Table
  modified : List TableModification

/-- Per-operation access-control from/to changes of one table
(`AccessControlChange`); pairs are `(from, to)`. -/
structure AccessControlChange where
  read : Option (Jx × Jx) := none
  create : Option (Jx × Jx) := none
  update : Option (Jx × Jx) := none
  delete : Option (Jx × Jx) := none

/-- Models `Object.keys(changes).length > 0` being false. -/
def AccessControlChange.isEmpty (c : AccessControlChange) : Bool :=
  c.read.isNone && c.create.isNone && c.update.isNone && c.delete.isNone

/-- One entry of `AccessControlDiff.tables`. -/
structure ACTableChange where
  tableName : String
  changes : AccessControlChange

/-- The access-control diff. -/
structure AccessControlDiff where
  tables : List ACTableChange

/-- The full database diff. -/
structure DatabaseDiff where
  tables : TableDiff
  accessControl : AccessControlDiff

/-- Result of a synthesis operation. -/
structure MigrationResult where
  sql : String
  accessControlDiff : AccessControlDiff

/-- One allowed field handed to the external parser configuration. -/
structure AllowedField where
  name : String
  type : String
  nullable : Bool
  default : Option Jx

/-- One relationship handed to the external parser configuration. -/
structure Relationship where
  table : String
  field : String
  toTable : String
  toField : String
  type : String

/-- The parser `Config` built by `createParserConfig` (tables as a name-keyed
record, the fixed variable context, derived relationships, dialect).
`variableBindings` models the source's `variables` record (`variables` is a
reserved word in Lean). -/
structure Config where
  tables : List (String × List AllowedField)
  variableBindings : List (String × Jx)
  relationships : List Relationship
  dialect : Dialect

/-- The `ParserState` passed to the external compiler. The fresh
`ExpressionTypeMap` cache created at each call site is internal to the
external parser and carries no information, so it is omitted. -/
structure ParserState where
  rootTable : String
  config : Config

/-- The external expression/condition compiler (json-to-sql-parser), an
explicit collaborator: each call either returns compiled SQL text or throws
a compilation error. -/
structure ParserFns where
  parseCondition : Jx → ParserState → Except String String
  parseExpression : Jx → ParserState → Except String String

/-- Transcription of `mapFieldType`: map a field type to the parser's
field-type enumeration (case-insensitively, with a `"string"` fallback). -/
def mapFieldType (fieldType : String) : String :=
  match asciiLower fieldType with
  | "text" | "string" | "varchar" | "char" => "string"
  | "int" | "integer" | "bigint" | "smallint" | "decimal"
  | "numeric" | "real" | "double" | "float" => "number"
  | "bool" | "boolean" => "boolean"
  | "json" | "jsonb" => "object"
  | "date" => "date"
  | "datetime" | "timestamp" | "timestamptz" => "datetime"
  | "uuid" => "uuid"
  | _ => "string"

/-- Transcription of `createParserConfig`: allowed fields, the fixed
`user_id` variable binding, relationships derived from field-level foreign
keys, and the dialect. -/
def createParserConfig (model : DataModel) (dialect : Dialect) : Config :=
  { tables := model.tables.map (fun t =>
      (t.name, t.fields.map (fun f =>
        { name := f.name
          type := mapFieldType f.type
          nullable := !(f.nonNullable.getD false)
          default := f.default }))),
    variableBindings := [("user_id", Jx.obj [("$uuid", Jx.str ("550e8400-e29b-41d4-a716-446655440000"))])],
    relationships := model.tables.flatMap (fun t =>
      t.fields.filterMap (fun f => f.foreignKey.map (fun fk =>
        { table := t.name
          field := f.name
          toTable := fk.table
          toField := fk.field
          type := "many-to-one" }))),
    dialect := dialect }

/-- The empty parser configuration used by `formatDefaultValue` when no model
is supplied (`{ tables: {}, variables: {}, relationships: [], dialect }`). -/
def emptyConfig (dialect : Dialect) : Config :=
  { tables := [], variableBindings := [], relationships := [], dialect := dialect }

/-- A name-keyed JavaScript `Map` built from a list of named items
(`new Map(xs.map((x) => [x.name, x]))`): later entries overwrite earlier
ones, so lookup returns the last item bearing the key. -/
def mapGetBy (key : α → String) (l : List α) (k : String) : Option α :=
  l.reverse.find? (fun x => key x == k)

/-- The attribute comparison of `generateFieldDiff` for one field present in
both snapshots: type/nullability/primary-key by strict equality, default and
foreign key by deep equality, recording `(from, to)` for each attribute that
differs. -/
def fieldChangesOf (oldField newField : Field) : FieldChange :=
  { type :=
      if oldField.type ≠ newField.type then some (oldField.type, newField.type) else none
    nonNullable :=
      if oldField.nonNullable ≠ newField.nonNullable then
        some (oldField.nonNullable.getD false, newField.nonNullable.getD false)
      else none
    primaryKey :=
      if oldField.primaryKey ≠ newField.primaryKey then
        some (oldField.primaryKey.getD false, newField.primaryKey.getD false)
      else none
    default :=
      if optionDeepEqual oldField.default newField.default then none
      else some (oldField.default, newField.default)
    foreignKey :=
      if oldField.foreignKey ≠ newField.foreignKey then
        some (oldField.foreignKey, newField.foreignKey)
      else none }

/-- Intermediate record returned by `generateFieldDiff`. -/
structure FieldDiffResult where
  fieldsAdded : List Field
  fieldsRemoved : List Field
  fieldsModified : List FieldMod

/-- Transcription of `generateFieldDiff`. -/
def generateFieldDiff (oldFields newFields : List Field) : FieldDiffResult :=
  { fieldsAdded := newFields.filter (fun f => (mapGetBy Field.name oldFields f.name).isNone)
    fieldsRemoved := oldFields.filter (fun f => (mapGetBy Field.name newFields f.name).isNone)
    fieldsModified := newFields.filterMap (fun nf =>
      match mapGetBy Field.name oldFields nf.name with
      | none => none
      | some of =>
        let changes := fieldChangesOf of nf
        if changes.isEmpty then none else some { field := nf, changes := changes }) }

/-- Transcription of `generateTableDiff`. -/
def generateTableDiff (oldTables newTables : List Table) : TableDiff :=
  { added := newTables.filter (fun t => (mapGetBy Table.name oldTables t.name).isNone)
    removed := oldTables.filter (fun t => (mapGetBy Table.name newTables t.name).isNone)
    modified := newTables.filterMap (fun nt =>
      match mapGetBy Table.name oldTables nt.name with
      | none => none
      | some ot =>
        let fieldChanges := generateFieldDiff ot.fields nt.fields
        let accessControlChanged := !(acDeepEqual ot.accessControl nt.accessControl)
        if fieldChanges.fieldsAdded.length > 0 ∨ fieldChanges.fieldsRemoved.length > 0 ∨
            fieldChanges.fieldsModified.length > 0 ∨ accessControlChanged then
          some { tableName := nt.name
                 fieldsAdded := fieldChanges.fieldsAdded
                 fieldsRemoved := fieldChanges.fieldsRemoved
                 fieldsModified := fieldChanges.fieldsModified
                 accessControlChanged := accessControlChanged }
        else none) }

/-- The permissive default condition used as the "from" state of a table
absent from the old snapshot. -/
def defaultCondition : Jx := Jx.bool true

/-- Transcription of `generateAccessControlDiff`. -/
def generateAccessControlDiff (oldTables newTables : List Table) : AccessControlDiff :=
  { tables := newTables.filterMap (fun nt =>
      match mapGetBy Table.name oldTables nt.name with
      | none =>
        some { tableName := nt.name
               changes :=
                 { read := some (defaultCondition, nt.accessControl.read)
                   create := some (defaultCondition, nt.accessControl.create)
                   update := some (defaultCondition, nt.accessControl.update)
                   delete := some (defaultCondition, nt.accessControl.delete) } }
      | some ot =>
        let changes : AccessControlChange :=
          { read :=
              if deepEqual ot.accessControl.read nt.accessControl.read then none
              else some (ot.accessControl.read, nt.accessControl.read)
            create :=
              if deepEqual ot.accessControl.create nt.accessControl.create then none
              else some (ot.accessControl.create, nt.accessControl.create)
            update :=
              if deepEqual ot.accessControl.update nt.accessControl.update then none
              else some (ot.accessControl.update, nt.accessControl.update)
            delete :=
              if deepEqual ot.accessControl.delete nt.accessControl.delete then none
              else some (ot.accessControl.delete, nt.accessControl.delete) }
        if changes.isEmpty then none
        else some { tableName := nt.name, changes := changes }) }

/-- Transcription of `generateDatabaseDiff`. -/
def generateDatabaseDiff (oldModel newModel : DataModel) : DatabaseDiff :=
  { tables := generateTableDiff oldModel.tables newModel.tables
    accessControl := generateAccessControlDiff oldModel.tables newModel.tables }

/-- Transcription of `generateAccessControlDiffForFullMigration`: every table
changes from the permissive default to its declared conditions. -/
def generateAccessControlDiffForFullMigration (tables : List Table) : AccessControlDiff :=
  { tables := tables.map (fun table =>
      { tableName := table.name
        changes :=
          { read := some (defaultCondition, table.accessControl.read)
            create := some (defaultCondition, table.accessControl.create)
            update := some (defaultCondition, table.accessControl.update)
            delete := some (defaultCondition, table.accessControl.delete) } }) }

/-- Transcription of `mapFieldTypeToSQL`: the fixed semantic-type × dialect
table with a `TEXT` fallback for unknown types. -/
def mapFieldTypeToSQL (fieldType : String) (dialect : Dialect) : String :=
  match dialect with
  | .POSTGRESQL =>
    match fieldType with
    | "string" => "TEXT"
    | "number" => "NUMERIC"
    | "boolean" => "BOOLEAN"
    | "object" => "JSONB"
    | "date" => "DATE"
    | "datetime" => "TIMESTAMP WITH TIME ZONE"
    | "uuid" => "UUID"
    | _ => "TEXT"
  | .SQLITE_MINIMAL =>
    match fieldType with
    | "string" => "TEXT"
    | "number" => "REAL"
    | "boolean" => "INTEGER"
    | "object" => "TEXT"
    | "date" => "TEXT"
    | "datetime" => "TEXT"
    | "uuid" => "TEXT"
    | _ => "TEXT"
  | .SQLITE_EXTENSIONS =>
    match fieldType with
    | "string" => "TEXT"
    | "number" => "REAL"
    | "boolean" => "INTEGER"
    | "object" => "JSON"
    | "date" => "TEXT"
    | "datetime" => "TEXT"
    | "uuid" => "TEXT"
    | _ => "TEXT"

/-- The loop that collects one result per item and aborts on the first thrown
exception (the behaviour of the source's `for` loops and `map`s under
`Except`). -/
def collectE (f : α → Except String β) : List α → Except String (List β)
  | [] => .ok []
  | a :: as =>
    match f a with
    | .error e => .error e
    | .ok b =>
      match collectE f as with
      | .error e => .error e
      | .ok bs => .ok (b :: bs)

/-- Transcription of `formatDefaultValue`. The `model` argument is the
optional third parameter (never supplied by the call sites in the source).
A complex (object-typed) expression is normalized and handed to the external
compiler; a compiler failure is re-thrown wrapped with the fixed prefix. -/
def formatDefaultValue (value : Option Jx) (dialect : Dialect) (pf : ParserFns)
    (model : Option DataModel) : Except String String :=
  match value with
  | none => .ok ("NULL")
  | some .null => .ok ("NULL")
  | some (.str s) => .ok (singleQuote ++ escapeSingleQuotes s ++ singleQuote)
  | some (.num n) => .ok (toString n)
  | some (.bool b) =>
    if dialect = .SQLITE_MINIMAL ∨ dialect = .SQLITE_EXTENSIONS then
      .ok (if b then ("1") else ("0"))
    else .ok (toString b)
  | some v =>
    let normalizedValue := normalizeExpression v
    let config :=
      match model with
      | some m => createParserConfig m dialect
      | none => emptyConfig dialect
    let st : ParserState := { rootTable := "", config := config }
    match pf.parseExpression normalizedValue st with
    | .error e => .error ("Failed to parse expression: " ++ e)
    | .ok sql =>
      if (dialect = .SQLITE_MINIMAL ∨ dialect = .SQLITE_EXTENSIONS) ∧ sql = "DATETIME()" then
        .ok ("CURRENT_TIMESTAMP")
      else .ok sql

/-- The `ON DELETE` / `ON UPDATE` suffix of a foreign-key clause
(`action.toUpperCase().replace(" ", " ")`; the `replace` is an identity). -/
def fkActionSuffix (kw : String) (action : Option String) : String :=
  match action with
  | some a => " ON " ++ kw ++ " " ++ asciiUpper a
  | none => ""

/-- The deterministic foreign-key constraint name used by every call site. -/
def fkConstraintName (tableName fieldName : String) : String :=
  "fk_" ++ tableName ++ "_" ++ fieldName

/-- The `ALTER TABLE ... ADD CONSTRAINT ... FOREIGN KEY ...` statement emitted
(verbatim the same snippet appears at the add-field, modify-field and
bootstrap call sites). -/
def addConstraintSQL (tableName fieldName : String) (fk : ForeignKey) : String :=
  "ALTER TABLE \"" ++ tableName ++ "\" ADD CONSTRAINT \"" ++
    fkConstraintName tableName fieldName ++ "\" FOREIGN KEY (\"" ++ fieldName ++
    "\") REFERENCES \"" ++ fk.table ++ "\" (\"" ++ fk.field ++ "\")" ++
    fkActionSuffix ("DELETE") fk.onDelete ++ fkActionSuffix ("UPDATE") fk.onUpdate ++ ";"

/-- The inline `FOREIGN KEY` clause added to SQLite `CREATE TABLE` bodies. -/
def inlineForeignKeyClause (field : Field) (fk : ForeignKey) : String :=
  "  FOREIGN KEY (\"" ++ field.name ++ "\") REFERENCES \"" ++ fk.table ++
    "\" (\"" ++ fk.field ++ "\")" ++
    fkActionSuffix ("DELETE") fk.onDelete ++ fkActionSuffix ("UPDATE") fk.onUpdate

/-- The `parts` array built for one column inside `generateCreateTableSQL`:
quoted name, native type, `PRIMARY KEY` when the flag is set, `NOT NULL`
when non-nullable and not a primary key, and an inline `DEFAULT`. -/
def fieldColumnParts (field : Field) (dialect : Dialect) (pf : ParserFns) :
    Except String (List String) :=
  let parts := ["\"" ++ field.name ++ "\"", mapFieldTypeToSQL field.type dialect]
  let parts := if field.primaryKey.getD false then parts ++ ["PRIMARY KEY"] else parts
  let parts :=
    if field.nonNullable.getD false ∧ ¬field.primaryKey.getD false then parts ++ ["NOT NULL"]
    else parts
  match field.default with
  | none => .ok parts
  | some d =>
    match formatDefaultValue (some d) dialect pf none with
    | .error e => .error e
    | .ok dv => .ok (parts ++ ["DEFAULT " ++ dv])

/-- Transcription of `generateCreateTableSQL`: column definitions, inline
foreign keys on the SQLite dialects, and — on PostgreSQL — the appended
`ENABLE ROW LEVEL SECURITY` statement. -/
def generateCreateTableSQL (table : Table) (dialect : Dialect) (pf : ParserFns) :
    Except String String :=
  match collectE (fun f =>
      match fieldColumnParts f dialect pf with
      | .error e => .error e
      | .ok parts => .ok ("  " ++ String.intercalate (" ") parts)) table.fields with
  | .error e => .error e
  | .ok columns =>
    let foreignKeys :=
      if dialect = .SQLITE_MINIMAL ∨ dialect = .SQLITE_EXTENSIONS then
        table.fields.filterMap (fun f => f.foreignKey.map (inlineForeignKeyClause f))
      else []
    let allColumns := columns ++ foreignKeys
    let sql := "CREATE TABLE \"" ++ table.name ++ "\" (\n" ++
      String.intercalate (",\n") allColumns ++ "\n);"
    if dialect = .POSTGRESQL then
      .ok (sql ++ "\n\nALTER TABLE \"" ++ table.name ++ "\" ENABLE ROW LEVEL SECURITY;")
    else .ok sql

/-- The `parts` array built inside `generateAddColumnSQL`. -/
def addColumnParts (tableName : String) (field : Field) (dialect : Dialect) (pf : ParserFns) :
    Except String (List String) :=
  let parts := ["ALTER TABLE \"" ++ tableName ++ "\"", "ADD COLUMN",
    "\"" ++ field.name ++ "\"", mapFieldTypeToSQL field.type dialect]
  let parts := if field.nonNullable.getD false then parts ++ ["NOT NULL"] else parts
  match field.default with
  | none => .ok parts
  | some d =>
    match formatDefaultValue (some d) dialect pf none with
    | .error e => .error e
    | .ok dv => .ok (parts ++ ["DEFAULT " ++ dv])

/-- Transcription of `generateAddColumnSQL`. -/
def generateAddColumnSQL (tableName : String) (field : Field) (dialect : Dialect)
    (pf : ParserFns) : Except String String :=
  match addColumnParts tableName field dialect pf with
  | .error e => .error e
  | .ok parts => .ok (String.intercalate (" ") parts ++ ";")

/-- The `sqlParts` array built inside `generateAlterColumnSQL`, in source
order: type change (in-place on PostgreSQL, four-statement column rebuild
with a `Date.now()`-named temporary column elsewhere), nullability change
(PostgreSQL only), default change (PostgreSQL only). -/
def generateAlterColumnSQLParts (tableName : String) (field : Field) (changes : FieldChange)
    (dialect : Dialect) (pf : ParserFns) (now : Nat) : Except String (List String) :=
  let typeParts : List String :=
    match changes.type with
    | none => []
    | some (_, toTy) =>
      let newType := mapFieldTypeToSQL toTy dialect
      if dialect = .POSTGRESQL then
        ["ALTER TABLE \"" ++ tableName ++ "\" ALTER COLUMN \"" ++ field.name ++
          "\" TYPE " ++ newType ++ ";"]
      else
        let newColumnName := field.name ++ "_" ++ toString now ++ "_new"
        ["ALTER TABLE \"" ++ tableName ++ "\" ADD COLUMN \"" ++ newColumnName ++ "\" " ++
           newType ++ ";",
         "UPDATE \"" ++ tableName ++ "\" SET \"" ++ newColumnName ++ "\" = CAST(\"" ++
           field.name ++ "\" AS " ++ newType ++ ");",
         "ALTER TABLE \"" ++ tableName ++ "\" DROP COLUMN \"" ++ field.name ++ "\";",
         "ALTER TABLE \"" ++ tableName ++ "\" RENAME COLUMN \"" ++ newColumnName ++
           "\" TO \"" ++ field.name ++ "\";"]
  let nnParts : List String :=
    match changes.nonNullable with
    | none => []
    | some (_, toNN) =>
      if dialect = .POSTGRESQL then
        ["ALTER TABLE \"" ++ tableName ++ "\" ALTER COLUMN \"" ++ field.name ++ "\" " ++
          (if toNN then ("SET NOT NULL") else ("DROP NOT NULL")) ++ ";"]
      else []
  match changes.default with
  | none => .ok (typeParts ++ nnParts)
  | some (_, toDef) =>
    if dialect = .POSTGRESQL then
      match toDef with
      | none =>
        .ok (typeParts ++ nnParts ++
          ["ALTER TABLE \"" ++ tableName ++ "\" ALTER COLUMN \"" ++ field.name ++
            "\" DROP DEFAULT;"])
      | some dv =>
        match formatDefaultValue (some dv) dialect pf none with
        | .error e => .error e
        | .ok s =>
          .ok (typeParts ++ nnParts ++
            ["ALTER TABLE \"" ++ tableName ++ "\" ALTER COLUMN \"" ++ field.name ++
              "\" SET DEFAULT " ++ s ++ ";"])
    else .ok (typeParts ++ nnParts)

/-- Transcription of `generateAlterColumnSQL`: the collected parts joined with
a newline (possibly the empty string when no part applies). -/
def generateAlterColumnSQL (tableName : String) (field : Field) (changes : FieldChange)
    (dialect : Dialect) (pf : ParserFns) (now : Nat) : Except String String :=
  match generateAlterColumnSQLParts tableName field changes dialect pf now with
  | .error e => .error e
  | .ok parts => .ok (String.intercalate ("\n") parts)

/-- One `CREATE POLICY` statement of the access-control translator: nothing
when the operation did not change, otherwise the condition is compiled by
the external parser and interpolated. -/
def policyPart (pf : ParserFns) (st : ParserState) (tableName policyOp clause : String)
    (change : Option (Jx × Jx)) : Except String (List String) :=
  match change with
  | none => .ok []
  | some (_, toCond) =>
    match pf.parseCondition toCond st with
    | .error e => .error e
    | .ok condition =>
      .ok ["CREATE POLICY \"" ++ tableName ++ "_" ++ policyOp ++ "_policy\" ON \"" ++
        tableName ++ "\" " ++ clause ++ " (" ++ condition ++ ");"]

/-- The loop body of `generateRLSPoliciesSQL` for one table: four
unconditional `DROP POLICY IF EXISTS` statements followed by one
`CREATE POLICY` per changed operation. -/
def rlsForTable (model : DataModel) (pf : ParserFns) (entry : ACTableChange) :
    Except String (List String) :=
  let tableName := entry.tableName
  let drops :=
    ["DROP POLICY IF EXISTS \"" ++ tableName ++ "_read_policy\" ON \"" ++ tableName ++ "\";",
     "DROP POLICY IF EXISTS \"" ++ tableName ++ "_create_policy\" ON \"" ++ tableName ++ "\";",
     "DROP POLICY IF EXISTS \"" ++ tableName ++ "_update_policy\" ON \"" ++ tableName ++ "\";",
     "DROP POLICY IF EXISTS \"" ++ tableName ++ "_delete_policy\" ON \"" ++ tableName ++ "\";"]
  let st : ParserState :=
    { rootTable := tableName, config := createParserConfig model Dialect.POSTGRESQL }
  match policyPart pf st tableName ("read") "FOR SELECT USING" entry.changes.read with
  | .error e => .error e
  | .ok readPart =>
    match policyPart pf st tableName ("create") "FOR INSERT WITH CHECK" entry.changes.create with
    | .error e => .error e
    | .ok createPart =>
      match policyPart pf st tableName ("update") "FOR UPDATE USING" entry.changes.update with
      | .error e => .error e
      | .ok updatePart =>
        match policyPart pf st tableName ("delete") "FOR DELETE USING" entry.changes.delete with
        | .error e => .error e
        | .ok deletePart => .ok (drops ++ readPart ++ createPart ++ updatePart ++ deletePart)

/-- Transcription of `generateRLSPoliciesSQL` (PostgreSQL only). -/
def generateRLSPoliciesSQL (accessControlDiff : AccessControlDiff) (model : DataModel)
    (pf : ParserFns) : Except String (List String) :=
  match collectE (rlsForTable model pf) accessControlDiff.tables with
  | .error e => .error e
  | .ok lists => .ok lists.flatten

/-- The statements pushed for one added field of a modified table: the
`ADD COLUMN` statement, followed on PostgreSQL by an `ADD CONSTRAINT` when
the new field carries a foreign key. -/
def addFieldParts (tableName : String) (field : Field) (dialect : Dialect) (pf : ParserFns) :
    Except String (List String) :=
  match generateAddColumnSQL tableName field dialect pf with
  | .error e => .error e
  | .ok s =>
    .ok (s :: (match field.foreignKey with
      | some fk =>
        if dialect = .POSTGRESQL then [addConstraintSQL tableName field.name fk] else []
      | none => []))

/-- The statements pushed for one removed field: on PostgreSQL a
`DROP CONSTRAINT IF EXISTS` first when the field had a foreign key, then the
`DROP COLUMN`. -/
def removeFieldParts (tableName : String) (field : Field) (dialect : Dialect) : List String :=
  (match field.foreignKey with
   | some _ =>
     if dialect = .POSTGRESQL then
       ["ALTER TABLE \"" ++ tableName ++ "\" DROP CONSTRAINT IF EXISTS \"" ++
         fkConstraintName tableName field.name ++ "\";"]
     else []
   | none => []) ++
  ["ALTER TABLE \"" ++ tableName ++ "\" DROP COLUMN \"" ++ field.name ++ "\";"]

/-- The statements pushed for one modified field: on PostgreSQL the
foreign-key constraint drop/add pair when the foreign key changed, then the
`generateAlterColumnSQL` text (one pushed string). -/
def fieldModParts (tableName : String) (fm : FieldMod) (dialect : Dialect) (pf : ParserFns)
    (now : Nat) : Except String (List String) :=
  let fkParts : List String :=
    match fm.changes.foreignKey with
    | some (fromFk, toFk) =>
      if dialect = .POSTGRESQL then
        (match fromFk with
         | some _ =>
           ["ALTER TABLE \"" ++ tableName ++ "\" DROP CONSTRAINT IF EXISTS \"" ++
             fkConstraintName tableName fm.field.name ++ "\";"]
         | none => []) ++
        (match toFk with
         | some fk => [addConstraintSQL tableName fm.field.name fk]
         | none => [])
      else []
    | none => []
  match generateAlterColumnSQL tableName fm.field fm.changes dialect pf now with
  | .error e => .error e
  | .ok alter => .ok (fkParts ++ [alter])

/-- The statements pushed for one `TableModification`, in source order:
added fields, removed fields, modified fields. -/
def modificationParts (m : TableModification) (dialect : Dialect) (pf : ParserFns) (now : Nat) :
    Except String (List String) :=
  match collectE (fun f => addFieldParts m.tableName f dialect pf) m.fieldsAdded with
  | .error e => .error e
  | .ok addLists =>
    let removeParts := m.fieldsRemoved.flatMap (fun f => removeFieldParts m.tableName f dialect)
    match collectE (fun fm => fieldModParts m.tableName fm dialect pf now) m.fieldsModified with
    | .error e => .error e
    | .ok modLists => .ok (addLists.flatten ++ removeParts ++ modLists.flatten)

/-- The `sqlParts` array of `generateMigrationFromDiff`, in source order:
removed tables, added tables, table modifications, and — on PostgreSQL —
the row-level-security policy block. -/
def generateMigrationFromDiffParts (diff : DatabaseDiff) (targetModel : DataModel)
    (dialect : Dialect) (pf : ParserFns) (now : Nat) : Except String (List String) :=
  let removedParts := diff.tables.removed.map (fun t => "DROP TABLE IF EXISTS \"" ++ t.name ++ "\";")
  match collectE (fun t => generateCreateTableSQL t dialect pf) diff.tables.added with
  | .error e => .error e
  | .ok addedParts =>
    match collectE (fun m => modificationParts m dialect pf now) diff.tables.modified with
    | .error e => .error e
    | .ok modLists =>
      match (if dialect = .POSTGRESQL then
          generateRLSPoliciesSQL diff.accessControl targetModel pf
        else .ok []) with
      | .error e => .error e
      | .ok rlsParts => .ok (removedParts ++ addedParts ++ modLists.flatten ++ rlsParts)

/-- Transcription of `generateMigrationFromDiff`: the collected statements,
with empty strings dropped (`filter(Boolean)`), joined with blank lines;
the diff's access-control part is returned unchanged. -/
def generateMigrationFromDiff (diff : DatabaseDiff) (targetModel : DataModel)
    (dialect : Dialect) (pf : ParserFns) (now : Nat) : Except String MigrationResult :=
  match generateMigrationFromDiffParts diff targetModel dialect pf now with
  | .error e => .error e
  | .ok parts =>
    .ok { sql := String.intercalate ("\n\n") (parts.filter (fun s => s ≠ ""))
          accessControlDiff := diff.accessControl }

/-- The `ALTER TABLE ... ADD CONSTRAINT` block of the bootstrap path
(PostgreSQL only; SQLite declares foreign keys inline). -/
def initialForeignKeyParts (model : DataModel) (dialect : Dialect) : List String :=
  if dialect = .POSTGRESQL then
    model.tables.flatMap (fun t =>
      t.fields.filterMap (fun f => f.foreignKey.map (addConstraintSQL t.name f.name)))
  else []

/-- The `sqlParts` array of `generateInitialMigration` together with the
access-control diff it reports: create-table statements, foreign-key
constraints and the policy block on PostgreSQL; an empty access-control
diff on the other dialects. -/
def generateInitialMigrationParts (model : DataModel) (dialect : Dialect) (pf : ParserFns) :
    Except String (List String × AccessControlDiff) :=
  match collectE (fun t => generateCreateTableSQL t dialect pf) model.tables with
  | .error e => .error e
  | .ok createParts =>
    let fkParts := initialForeignKeyParts model dialect
    if dialect = .POSTGRESQL then
      let accessControlDiff := generateAccessControlDiffForFullMigration model.tables
      match generateRLSPoliciesSQL accessControlDiff model pf with
      | .error e => .error e
      | .ok rlsParts => .ok (createParts ++ fkParts ++ rlsParts, accessControlDiff)
    else .ok (createParts ++ fkParts, { tables := [] })

/-- Transcription of `generateInitialMigration`. -/
def generateInitialMigration (model : DataModel) (dialect : Dialect) (pf : ParserFns) :
    Except String MigrationResult :=
  match generateInitialMigrationParts model dialect pf with
  | .error e => .error e
  | .ok (parts, accessControlDiff) =>
    .ok { sql := String.intercalate ("\n\n") (parts.filter (fun s => s ≠ ""))
          accessControlDiff := accessControlDiff }

/-! Helper lemmas about the embedding. -/

theorem collectE_ok_mem {α β : Type} {f : α → Except String β} {l : List α} {rs : List β}
    (h : collectE f l = .ok rs) {x : α} (hx : x ∈ l) : ∃ r, f x = .ok r ∧ r ∈ rs := by
  induction l generalizing rs with
  | nil => simp at hx
  | cons a as ih =>
    unfold collectE at h
    cases hfa : f a with
    | error e => rw [hfa] at h; simp at h
    | ok b =>
      rw [hfa] at h
      cases hrec : collectE f as with
      | error e => rw [hrec] at h; simp at h
      | ok bs =>
        rw [hrec] at h
        injection h with h
        subst h
        rcases List.mem_cons.mp hx with rfl | hmem
        · exact ⟨b, hfa, by simp⟩
        · obtain ⟨r, hr1, hr2⟩ := ih hrec hmem
          exact ⟨r, hr1, by simp [hr2]⟩

theorem collectE_congr {α β : Type} {f g : α → Except String β} {l : List α}
    (h : ∀ x ∈ l, f x = g x) : collectE f l = collectE g l := by
  induction l with
  | nil => rfl
  | cons a as ih =>
    unfold collectE
    rw [h a (by simp), ih (fun x hx => h x (by simp [hx]))]

theorem mapGetBy_isSome_iff {α : Type} {key : α → String} {l : List α} {k : String} :
    (mapGetBy key l k).isSome ↔ ∃ x ∈ l, key x = k := by
  unfold mapGetBy
  rw [List.find?_isSome]
  simp [List.mem_reverse]

theorem mapGetBy_isNone_iff {α : Type} {key : α → String} {l : List α} {k : String} :
    (mapGetBy key l k).isNone ↔ ∀ x ∈ l, key x ≠ k := by
  constructor
  · intro h x hx hk
    have hs := mapGetBy_isSome_iff.mpr ⟨x, hx, hk⟩
    rw [Option.isNone_iff_eq_none] at h
    rw [h] at hs
    simp at hs
  · intro h
    rw [Option.isNone_iff_eq_none]
    cases hc : mapGetBy key l k with
    | none => rfl
    | some y =>
      have hs : (mapGetBy key l k).isSome := by rw [hc]; rfl
      obtain ⟨x, hx, hk⟩ := mapGetBy_isSome_iff.mp hs
      exact absurd hk (h x hx)

theorem mapGetBy_self_of_nodup {α : Type} {key : α → String} {l : List α}
    (hn : (l.map key).Nodup) {x : α} (hx : x ∈ l) : mapGetBy key l (key x) = some x := by
  unfold mapGetBy
  have hsome : (l.reverse.find? (fun y => key y == key x)).isSome := by
    rw [List.find?_isSome]
    exact ⟨x, List.mem_reverse.mpr hx, by simp⟩
  obtain ⟨y, hy⟩ := Option.isSome_iff_exists.mp hsome
  rw [hy]
  have hym := List.mem_of_find?_eq_some hy
  have hkey := List.find?_some hy
  simp only [beq_iff_eq] at hkey
  have hyx : y = x := List.inj_on_of_nodup_map hn (List.mem_reverse.mp hym) hx hkey
  rw [hyx]

theorem jxLookup_of_nodup {kvs : List (String × Jx)} (hn : (kvs.map Prod.fst).Nodup)
    {k : String} {v : Jx} (hm : (k, v) ∈ kvs) : jxLookup k kvs = some v := by
  induction kvs with
  | nil => simp at hm
  | cons p rest ih =>
    obtain ⟨k', v'⟩ := p
    simp only [List.map_cons, List.nodup_cons] at hn
    rcases List.mem_cons.mp hm with heq | hmem
    · injection heq with h1 h2
      subst h1; subst h2
      simp [jxLookup]
    · have hk : k' ≠ k := by
        intro hkk
        subst hkk
        exact hn.1 (List.mem_map.mpr ⟨(k', v), hmem, rfl⟩)
      simp only [jxLookup, beq_iff_eq, if_neg hk]
      exact ih hn.2 hmem

theorem deepEqualObjGo_all {kvs sub : List (String × Jx)}
    (h : ∀ p ∈ sub, jxLookup p.1 kvs = some p.2 ∧ deepEqual p.2 p.2 = true) :
    deepEqualObjGo sub kvs = true := by
  induction sub with
  | nil => rfl
  | cons p rest ih =>
    obtain ⟨k, v⟩ := p
    obtain ⟨h1, h2⟩ := h (k, v) (by simp)
    dsimp only at h1 h2
    unfold deepEqualObjGo
    rw [h1]
    dsimp only
    rw [h2, ih (fun q hq => h q (by simp [hq]))]
    rfl

theorem deepEqual_refl {a : Jx} (h : JxWF a) : deepEqual a a = true := by
  induction h with
  | str s => simp [deepEqual]
  | num n => simp [deepEqual]
  | bool b => simp [deepEqual]
  | null => rfl
  | arr l hwf ih =>
    unfold deepEqual
    have : ∀ sub : List Jx, (∀ x ∈ sub, deepEqual x x = true) → deepEqualList sub sub = true := by
      intro sub
      induction sub with
      | nil => intro _; rfl
      | cons x xs ihs =>
        intro hall
        unfold deepEqualList
        rw [hall x (by simp), ihs (fun y hy => hall y (by simp [hy]))]
        rfl
    exact this l ih
  | obj kvs hk hwf ih =>
    unfold deepEqual
    rw [deepEqualObjGo_all (fun p hp => ⟨jxLookup_of_nodup hk hp, ih p hp⟩)]
    simp

theorem acDeepEqual_refl {ac : AccessControl} (h1 : JxWF ac.read) (h2 : JxWF ac.create)
    (h3 : JxWF ac.update) (h4 : JxWF ac.delete) : acDeepEqual ac ac = true := by
  unfold acDeepEqual
  rw [deepEqual_refl h1, deepEqual_refl h2, deepEqual_refl h3, deepEqual_refl h4]
  rfl

theorem optionDeepEqual_refl {o : Option Jx} (h : ∀ v ∈ o, JxWF v) :
    optionDeepEqual o o = true := by
  cases o with
  | none => rfl
  | some v => exact deepEqual_refl (h v rfl)

/-- Substring test on character lists: `charsHasSub needle hay` is true when
`needle` occurs contiguously inside `hay`. -/
def charsHasSub (needle hay : List Char) : Bool :=
  match hay with
  | [] => needle.isEmpty
  | _ :: t => needle.isPrefixOf hay || charsHasSub needle t

/-! Concrete instances used by witnesses and counterexamples. -/

/-- A concrete external compiler that always succeeds. -/
def pfOk : ParserFns :=
  { parseCondition := fun _ _ => .ok ("TRUE")
    parseExpression := fun _ _ => .ok ("NOW()") }

/-- A concrete external compiler that always fails with message "boom". -/
def pfFail : ParserFns :=
  { parseCondition := fun _ _ => .error ("boom")
    parseExpression := fun _ _ => .error ("boom") }

/-- Fully permissive access control. -/
def acAllTrue : AccessControl :=
  { read := Jx.bool true, create := Jx.bool true, update := Jx.bool true, delete := Jx.bool true }

/-- A concrete `users` table. -/
def usersTable : Table :=
  { name := "users"
    fields := [{ name := "id", type := "uuid", nonNullable := some true, primaryKey := some true },
               { name := "email", type := "string", nonNullable := some true }]
    accessControl := acAllTrue }

/-- A concrete one-table model. -/
def usersModel : DataModel := { tables := [usersTable] }

/-! Claim C10. -/

/-- C10: on either SQLite dialect, `generateInitialMigration` reports an
access-control diff with an empty tables list, whatever the model declares. -/
theorem initial_migration_sqlite_empty_access_control
    (model : DataModel) (dialect : Dialect) (pf : ParserFns) (r : MigrationResult)
    (hd : dialect = Dialect.SQLITE_MINIMAL ∨ dialect = Dialect.SQLITE_EXTENSIONS)
    (h : generateInitialMigration model dialect pf = .ok r) :
    r.accessControlDiff.tables = [] := by
  unfold generateInitialMigration at h
  cases hp : generateInitialMigrationParts model dialect pf with
  | error e => rw [hp] at h; simp at h
  | ok pa =>
    rw [hp] at h
    obtain ⟨parts, ac⟩ := pa
    injection h with h
    subst h
    unfold generateInitialMigrationParts at hp
    cases hc : collectE (fun t => generateCreateTableSQL t dialect pf) model.tables with
    | error e => rw [hc] at hp; simp at hp
    | ok createParts =>
      rw [hc] at hp
      rcases hd with rfl | rfl <;> simp at hp <;> simp [← hp.2]

/-- The result of the C10 witness run. -/
def c10Result : MigrationResult :=
  match generateInitialMigration usersModel Dialect.SQLITE_MINIMAL pfOk with
  | .ok r => r
  | .error _ => { sql := "", accessControlDiff := { tables := [] } }

/-- Witness for C10: the hypotheses hold at a concrete model/dialect/compiler
and the theorem applies there. -/
theorem initial_migration_sqlite_empty_access_control_witness :
    generateInitialMigration usersModel Dialect.SQLITE_MINIMAL pfOk = .ok c10Result ∧
    c10Result.accessControlDiff.tables = [] :=
  ⟨rfl, initial_migration_sqlite_empty_access_control usersModel Dialect.SQLITE_MINIMAL pfOk
    c10Result (Or.inl rfl) rfl⟩

/-! Claim C8. -/

/-- C8: a nullability change yields a `SET NOT NULL` / `DROP NOT NULL`
statement on PostgreSQL only; on both SQLite dialects it contributes no
statement at all (the parts are those of the same change record with the
nullability entry removed). -/
theorem nullability_change_postgres_only
    (tableName : String) (field : Field) (changes : FieldChange) (pf : ParserFns) (now : Nat)
    (fromNN toNN : Bool) (hch : changes.nonNullable = some (fromNN, toNN)) :
    (∀ parts,
       generateAlterColumnSQLParts tableName field changes Dialect.POSTGRESQL pf now = .ok parts →
       ("ALTER TABLE \"" ++ tableName ++ "\" ALTER COLUMN \"" ++ field.name ++ "\" " ++
         (if toNN then ("SET NOT NULL") else ("DROP NOT NULL")) ++ ";") ∈ parts) ∧
    (∀ dialect, dialect = Dialect.SQLITE_MINIMAL ∨ dialect = Dialect.SQLITE_EXTENSIONS →
       generateAlterColumnSQLParts tableName field changes dialect pf now =
       generateAlterColumnSQLParts tableName field
         { changes with nonNullable := none } dialect pf now) := by
  constructor
  · intro parts hparts
    unfold generateAlterColumnSQLParts at hparts
    rw [hch] at hparts
    cases hdef : changes.default with
    | none =>
      rw [hdef] at hparts
      simp at hparts
      subst hparts
      simp
    | some p =>
      obtain ⟨fromDef, toDef⟩ := p
      rw [hdef] at hparts
      cases toDef with
      | none =>
        simp at hparts
        subst hparts
        simp
      | some dv =>
        cases hfd : formatDefaultValue (some dv) Dialect.POSTGRESQL pf none with
        | error e => simp [hfd] at hparts
        | ok s =>
          simp [hfd] at hparts
          subst hparts
          simp
  · intro dialect hd
    rcases hd with rfl | rfl <;>
      · unfold generateAlterColumnSQLParts
        rw [hch]
        simp

/-- A concrete nullability-only change record. -/
def c8Changes : FieldChange := { nonNullable := some (false, true) }

/-- The C8 witness field. -/
def c8Field : Field := { name := "email", type := "string" }

/-- Witness for C8 at a concrete change record. -/
theorem nullability_change_postgres_only_witness :
    c8Changes.nonNullable = some (false, true) ∧
    ((∀ parts,
       generateAlterColumnSQLParts ("users") c8Field c8Changes Dialect.POSTGRESQL pfOk 0 =
         .ok parts →
       ("ALTER TABLE \"" ++ "users" ++ "\" ALTER COLUMN \"" ++ c8Field.name ++ "\" " ++
         (if true then ("SET NOT NULL") else ("DROP NOT NULL")) ++ ";") ∈ parts) ∧
     (∀ dialect, dialect = Dialect.SQLITE_MINIMAL ∨ dialect = Dialect.SQLITE_EXTENSIONS →
       generateAlterColumnSQLParts ("users") c8Field c8Changes dialect pfOk 0 =
       generateAlterColumnSQLParts ("users") c8Field
         { c8Changes with nonNullable := none } dialect pfOk 0)) :=
  ⟨rfl, nullability_change_postgres_only ("users") c8Field c8Changes pfOk 0 false true rfl⟩

/-! Claim C9. -/

theorem quoted_ne_notNull (s : String) : "\"" ++ s ++ "\"" ≠ "NOT NULL" := by
  intro h
  have h2 := congrArg String.data h
  rw [String.data_append, String.data_append] at h2
  simp at h2

theorem defaultClause_ne_notNull (s : String) : "DEFAULT " ++ s ≠ "NOT NULL" := by
  intro h
  have h2 := congrArg String.data h
  rw [String.data_append] at h2
  simp at h2

theorem mapFieldTypeToSQL_ne_notNull (ty : String) (dialect : Dialect) :
    mapFieldTypeToSQL ty dialect ≠ "NOT NULL" := by
  unfold mapFieldTypeToSQL
  cases dialect <;> (dsimp only; split <;> decide)

/-- C9: in a table-creation column definition a primary-key field receives
`PRIMARY KEY` and never `NOT NULL` (even when `nonNullable` is set), while an
`ADD COLUMN` statement for a non-nullable field receives `NOT NULL` whatever
its `primaryKey` flag says. -/
theorem primary_key_column_clauses
    (field addedField : Field) (dialect : Dialect) (pf : ParserFns)
    (tableName : String) (parts addParts : List String)
    (hpk : field.primaryKey = some true)
    (h1 : fieldColumnParts field dialect pf = .ok parts)
    (hnn : addedField.nonNullable = some true)
    (h2 : addColumnParts tableName addedField dialect pf = .ok addParts) :
    "PRIMARY KEY" ∈ parts ∧ "NOT NULL" ∉ parts ∧ "NOT NULL" ∈ addParts := by
  have haddmem : "NOT NULL" ∈ addParts := by
    unfold addColumnParts at h2
    rw [hnn] at h2
    cases hdef2 : addedField.default with
    | none =>
      rw [hdef2] at h2
      simp at h2
      subst h2
      simp
    | some d2 =>
      rw [hdef2] at h2
      cases hfd2 : formatDefaultValue (some d2) dialect pf none with
      | error e => simp [hfd2] at h2
      | ok dv2 =>
        simp [hfd2] at h2
        subst h2
        simp
  unfold fieldColumnParts at h1
  rw [hpk] at h1
  cases hdef : field.default with
  | none =>
    rw [hdef] at h1
    simp at h1
    subst h1
    refine ⟨by simp, ?_, haddmem⟩
    intro hmem
    simp at hmem
    rcases hmem with h | h
    · exact quoted_ne_notNull field.name h.symm
    · exact mapFieldTypeToSQL_ne_notNull field.type dialect h.symm
  | some d =>
    rw [hdef] at h1
    cases hfd : formatDefaultValue (some d) dialect pf none with
    | error e => simp [hfd] at h1
    | ok dv =>
      simp [hfd] at h1
      subst h1
      refine ⟨by simp, ?_, haddmem⟩
      intro hmem
      simp at hmem
      rcases hmem with h | h | h
      · exact quoted_ne_notNull field.name h.symm
      · exact mapFieldTypeToSQL_ne_notNull field.type dialect h.symm
      · exact defaultClause_ne_notNull dv h.symm

/-- The C9 witness primary-key field (also non-nullable, exercising the
"even when non-nullable" part). -/
def c9Field : Field :=
  { name := "id", type := "uuid", nonNullable := some true, primaryKey := some true }

/-- The C9 witness added non-nullable field. -/
def c9AddField : Field := { name := "email", type := "string", nonNullable := some true }

/-- The column parts of the C9 witness primary-key field. -/
def c9Parts : List String :=
  match fieldColumnParts c9Field Dialect.POSTGRESQL pfOk with
  | .ok parts => parts
  | .error _ => []

/-- The add-column parts of the C9 witness non-nullable field. -/
def c9AddParts : List String :=
  match addColumnParts ("users") c9AddField Dialect.POSTGRESQL pfOk with
  | .ok parts => parts
  | .error _ => []

/-- Witness for C9 at concrete fields. -/
theorem primary_key_column_clauses_witness :
    fieldColumnParts c9Field Dialect.POSTGRESQL pfOk = .ok c9Parts ∧
    addColumnParts ("users") c9AddField Dialect.POSTGRESQL pfOk = .ok c9AddParts ∧
    ("PRIMARY KEY" ∈ c9Parts ∧ "NOT NULL" ∉ c9Parts ∧ "NOT NULL" ∈ c9AddParts) :=
  ⟨rfl, rfl,
    primary_key_column_clauses c9Field c9AddField Dialect.POSTGRESQL pfOk ("users")
      c9Parts c9AddParts rfl rfl rfl rfl⟩

/-! Claim C5. -/

theorem mem_added_names_iff {oldTables newTables : List Table} {n : String} :
    n ∈ (generateTableDiff oldTables newTables).added.map Table.name ↔
      (n ∈ newTables.map Table.name ∧ n ∉ oldTables.map Table.name) := by
  unfold generateTableDiff
  simp only [List.mem_map, List.mem_filter]
  constructor
  · rintro ⟨t, ⟨htB, hnone⟩, rfl⟩
    refine ⟨⟨t, htB, rfl⟩, ?_⟩
    rintro ⟨u, huA, hun⟩
    exact mapGetBy_isNone_iff.mp hnone u huA hun
  · rintro ⟨⟨t, htB, rfl⟩, hnA⟩
    refine ⟨t, ⟨htB, mapGetBy_isNone_iff.mpr ?_⟩, rfl⟩
    intro u huA hun
    exact hnA ⟨u, huA, hun⟩

theorem mem_removed_names_iff {oldTables newTables : List Table} {n : String} :
    n ∈ (generateTableDiff oldTables newTables).removed.map Table.name ↔
      (n ∈ oldTables.map Table.name ∧ n ∉ newTables.map Table.name) := by
  unfold generateTableDiff
  simp only [List.mem_map, List.mem_filter]
  constructor
  · rintro ⟨t, ⟨htA, hnone⟩, rfl⟩
    refine ⟨⟨t, htA, rfl⟩, ?_⟩
    rintro ⟨u, huB, hun⟩
    exact mapGetBy_isNone_iff.mp hnone u huB hun
  · rintro ⟨⟨t, htA, rfl⟩, hnB⟩
    refine ⟨t, ⟨htA, mapGetBy_isNone_iff.mpr ?_⟩, rfl⟩
    intro u huB hun
    exact hnB ⟨u, huB, hun⟩

/-- C5: the added names, the names common to both snapshots and the removed
names of `generateDatabaseDiff A B` together reconstruct exactly the union of
the table names of A and B, and the added and removed name sets are disjoint. -/
theorem table_diff_name_partition (A B : DataModel) (n : String) :
    ((n ∈ (generateDatabaseDiff A B).tables.added.map Table.name ∨
      (n ∈ A.tables.map Table.name ∧ n ∈ B.tables.map Table.name) ∨
      n ∈ (generateDatabaseDiff A B).tables.removed.map Table.name) ↔
     (n ∈ A.tables.map Table.name ∨ n ∈ B.tables.map Table.name)) ∧
    ¬(n ∈ (generateDatabaseDiff A B).tables.added.map Table.name ∧
      n ∈ (generateDatabaseDiff A B).tables.removed.map Table.name) := by
  have hadd := @mem_added_names_iff A.tables B.tables n
  have hrem := @mem_removed_names_iff A.tables B.tables n
  unfold generateDatabaseDiff
  constructor
  · constructor
    · rintro (h | ⟨h1, _⟩ | h)
      · exact Or.inr (hadd.mp h).1
      · exact Or.inl h1
      · exact Or.inl (hrem.mp h).1
    · intro h
      by_cases hA : n ∈ A.tables.map Table.name <;> by_cases hB : n ∈ B.tables.map Table.name
      · exact Or.inr (Or.inl ⟨hA, hB⟩)
      · exact Or.inr (Or.inr (hrem.mpr ⟨hA, hB⟩))
      · exact Or.inl (hadd.mpr ⟨hB, hA⟩)
      · rcases h with h | h <;> contradiction
  · rintro ⟨h1, h2⟩
    exact (hadd.mp h1).2 (hrem.mp h2).1

/-! Claim C4. -/

/-- Well-formedness invariants of a schema snapshot (spec section 3): table
names unique within the snapshot, field names unique within each table, and
every JSON document in it the image of a real JavaScript value. -/
def WellFormedModel (m : DataModel) : Prop :=
  (m.tables.map Table.name).Nodup ∧
  ∀ t ∈ m.tables, (t.fields.map Field.name).Nodup ∧
    JxWF t.accessControl.read ∧ JxWF t.accessControl.create ∧
    JxWF t.accessControl.update ∧ JxWF t.accessControl.delete ∧
    ∀ f ∈ t.fields, ∀ v ∈ f.default, JxWF v

theorem fieldChangesOf_self {f : Field} (hwf : ∀ v ∈ f.default, JxWF v) :
    (fieldChangesOf f f).isEmpty = true := by
  unfold fieldChangesOf FieldChange.isEmpty
  simp [optionDeepEqual_refl hwf]

theorem generateFieldDiff_self {fields : List Field} (hn : (fields.map Field.name).Nodup)
    (hwf : ∀ f ∈ fields, ∀ v ∈ f.default, JxWF v) :
    generateFieldDiff fields fields =
      { fieldsAdded := [], fieldsRemoved := [], fieldsModified := [] } := by
  unfold generateFieldDiff
  have hnone : ∀ f ∈ fields, ¬((mapGetBy Field.name fields f.name).isNone = true) := by
    intro f hf hcontra
    exact mapGetBy_isNone_iff.mp hcontra f hf rfl
  have h1 : fields.filter (fun f => (mapGetBy Field.name fields f.name).isNone) = [] :=
    List.filter_eq_nil_iff.mpr hnone
  have h2 : (fields.filterMap (fun nf =>
      match mapGetBy Field.name fields nf.name with
      | none => none
      | some of =>
        let changes := fieldChangesOf of nf
        if changes.isEmpty then none
        else some { field := nf, changes := changes })) = ([] : List FieldMod) := by
    apply List.filterMap_eq_nil_iff.mpr
    intro nf hnf
    rw [mapGetBy_self_of_nodup hn hnf]
    simp [fieldChangesOf_self (hwf nf hnf)]
  rw [h1, h2]

/-- C4: diffing a well-formed snapshot against itself yields the empty diff:
no added, removed or modified tables and no access-control changes. -/
theorem diff_self_empty (A : DataModel) (h : WellFormedModel A) :
    (generateDatabaseDiff A A).tables.added = [] ∧
    (generateDatabaseDiff A A).tables.removed = [] ∧
    (generateDatabaseDiff A A).tables.modified = [] ∧
    (generateDatabaseDiff A A).accessControl.tables = [] := by
  obtain ⟨hnames, htab⟩ := h
  have hnone : ∀ t ∈ A.tables, ¬((mapGetBy Table.name A.tables t.name).isNone = true) := by
    intro t ht hcontra
    exact mapGetBy_isNone_iff.mp hcontra t ht rfl
  unfold generateDatabaseDiff generateTableDiff generateAccessControlDiff
  refine ⟨List.filter_eq_nil_iff.mpr hnone, List.filter_eq_nil_iff.mpr hnone, ?_, ?_⟩
  · apply List.filterMap_eq_nil_iff.mpr
    intro t ht
    rw [mapGetBy_self_of_nodup hnames ht]
    obtain ⟨hfn, hr, hc, hu, hd, hfwf⟩ := htab t ht
    have hfd := generateFieldDiff_self hfn hfwf
    have hac : acDeepEqual t.accessControl t.accessControl = true :=
      acDeepEqual_refl hr hc hu hd
    simp [hfd, hac]
  · apply List.filterMap_eq_nil_iff.mpr
    intro t ht
    rw [mapGetBy_self_of_nodup hnames ht]
    obtain ⟨hfn, hr, hc, hu, hd, hfwf⟩ := htab t ht
    simp [deepEqual_refl hr, deepEqual_refl hc, deepEqual_refl hu, deepEqual_refl hd,
      AccessControlChange.isEmpty]

/-- The C4 witness model: two tables with fields, defaults and non-trivial
access-control conditions. -/
def c4Model : DataModel :=
  { tables :=
      [{ name := "users"
         fields := [{ name := "id", type := "uuid", primaryKey := some true },
                    { name := "email", type := "string", nonNullable := some true }]
         accessControl :=
           { read := Jx.bool true
             create := Jx.bool true
             update := Jx.obj [("$eq", Jx.arr [Jx.obj [("$field", Jx.str ("id"))],
               Jx.obj [("$var", Jx.str ("user_id"))]])]
             delete := Jx.bool false } },
       { name := "posts"
         fields := [{ name := "id", type := "uuid", primaryKey := some true },
                    { name := "score", type := "number", default := some (Jx.num 0) }]
         accessControl := acAllTrue }] }

theorem c4Model_wf : WellFormedModel c4Model := by
  constructor
  · decide
  · intro t ht
    simp [c4Model] at ht
    rcases ht with rfl | rfl
    · refine ⟨by decide, JxWF.bool true, JxWF.bool true, ?_, JxWF.bool false, ?_⟩
      · refine JxWF.obj _ (by decide) ?_
        intro p hp
        simp at hp
        subst hp
        refine JxWF.arr _ ?_
        intro x hx
        simp at hx
        rcases hx with rfl | rfl <;>
          exact JxWF.obj _ (by decide) (by intro p hp; simp at hp; subst hp; exact JxWF.str _)
      · intro f hf v hv
        simp at hf
        rcases hf with rfl | rfl <;> simp at hv
    · refine ⟨by decide, JxWF.bool true, JxWF.bool true, JxWF.bool true, JxWF.bool true, ?_⟩
      intro f hf v hv
      simp [acAllTrue] at hf
      rcases hf with rfl | rfl
      · simp at hv
      · simp at hv
        subst hv
        exact JxWF.num 0

/-- Witness for C4: the well-formedness hypothesis holds at a concrete
two-table model and the theorem applies there. -/
theorem diff_self_empty_witness :
    WellFormedModel c4Model ∧
    ((generateDatabaseDiff c4Model c4Model).tables.added = [] ∧
     (generateDatabaseDiff c4Model c4Model).tables.removed = [] ∧
     (generateDatabaseDiff c4Model c4Model).tables.modified = [] ∧
     (generateDatabaseDiff c4Model c4Model).accessControl.tables = []) :=
  ⟨c4Model_wf, diff_self_empty c4Model c4Model_wf⟩

/-! Claim C1. -/

/-- The four column-rebuild statements (add temporary column, copy-and-cast,
drop original, rename) emitted for a type change on a dialect without
in-place retyping. -/
def rebuildStatements (tableName : String) (field : Field) (toTy : String) (dialect : Dialect)
    (now : Nat) : List String :=
  let newType := mapFieldTypeToSQL toTy dialect
  let newColumnName := field.name ++ "_" ++ toString now ++ "_new"
  ["ALTER TABLE \"" ++ tableName ++ "\" ADD COLUMN \"" ++ newColumnName ++ "\" " ++
     newType ++ ";",
   "UPDATE \"" ++ tableName ++ "\" SET \"" ++ newColumnName ++ "\" = CAST(\"" ++
     field.name ++ "\" AS " ++ newType ++ ");",
   "ALTER TABLE \"" ++ tableName ++ "\" DROP COLUMN \"" ++ field.name ++ "\";",
   "ALTER TABLE \"" ++ tableName ++ "\" RENAME COLUMN \"" ++ newColumnName ++
     "\" TO \"" ++ field.name ++ "\";"]

theorem alterParts_sqlite_type_change {tableName : String} {field : Field}
    {changes : FieldChange} {dialect : Dialect} {pf : ParserFns} {now : Nat}
    {fromTy toTy : String}
    (hd : dialect = Dialect.SQLITE_MINIMAL ∨ dialect = Dialect.SQLITE_EXTENSIONS)
    (hty : changes.type = some (fromTy, toTy)) :
    generateAlterColumnSQLParts tableName field changes dialect pf now =
      .ok (rebuildStatements tableName field toTy dialect now) := by
  rcases hd with rfl | rfl <;>
    · unfold generateAlterColumnSQLParts rebuildStatements
      rw [hty]
      cases hnn : changes.nonNullable <;> cases hdef : changes.default <;> simp

theorem fromDiffParts_contains_alter
    {diff : DatabaseDiff} {targetModel : DataModel} {dialect : Dialect} {pf : ParserFns}
    {now : Nat} {parts : List String}
    (hok : generateMigrationFromDiffParts diff targetModel dialect pf now = .ok parts)
    {m : TableModification} (hm : m ∈ diff.tables.modified)
    {fm : FieldMod} (hfm : fm ∈ m.fieldsModified)
    {s : String}
    (halter : generateAlterColumnSQL m.tableName fm.field fm.changes dialect pf now = .ok s) :
    s ∈ parts := by
  unfold generateMigrationFromDiffParts at hok
  cases h1 : collectE (fun t => generateCreateTableSQL t dialect pf) diff.tables.added with
  | error e => rw [h1] at hok; simp at hok
  | ok addedParts =>
    rw [h1] at hok
    cases h2 : collectE (fun mm => modificationParts mm dialect pf now) diff.tables.modified with
    | error e => rw [h2] at hok; simp at hok
    | ok modLists =>
      rw [h2] at hok
      cases h3 : (if dialect = Dialect.POSTGRESQL then
          generateRLSPoliciesSQL diff.accessControl targetModel pf else .ok []) with
      | error e => rw [h3] at hok; simp at hok
      | ok rlsParts =>
        rw [h3] at hok
        injection hok with hok
        subst hok
        obtain ⟨mp, hmp, hmpmem⟩ := collectE_ok_mem h2 hm
        unfold modificationParts at hmp
        cases h4 : collectE (fun f => addFieldParts m.tableName f dialect pf) m.fieldsAdded with
        | error e => rw [h4] at hmp; simp at hmp
        | ok addLists =>
          rw [h4] at hmp
          cases h5 : collectE (fun fmm => fieldModParts m.tableName fmm dialect pf now)
              m.fieldsModified with
          | error e => rw [h5] at hmp; simp at hmp
          | ok fmLists =>
            rw [h5] at hmp
            injection hmp with hmp
            subst hmp
            obtain ⟨fp, hfp, hfpmem⟩ := collectE_ok_mem h5 hfm
            unfold fieldModParts at hfp
            rw [halter] at hfp
            injection hfp with hfp
            subst hfp
            apply List.mem_append_left
            apply List.mem_append_right
            rw [List.mem_flatten]
            refine ⟨_, hmpmem, ?_⟩
            apply List.mem_append_right
            rw [List.mem_flatten]
            exact ⟨_, hfpmem, by simp⟩

/-- C1: for every field modification carrying a type change, synthesized from
a diff on a dialect without in-place retyping (either SQLite dialect), the
alter-column step consists of exactly the four rebuild statements in the
fixed add/copy/drop/rename order, and their joined text is one of the
statement blocks emitted by `generateMigrationFromDiff`. -/
theorem type_change_sqlite_rebuild
    (diff : DatabaseDiff) (targetModel : DataModel) (dialect : Dialect) (pf : ParserFns)
    (now : Nat) (m : TableModification) (fm : FieldMod) (fromTy toTy : String)
    (parts : List String)
    (hd : dialect = Dialect.SQLITE_MINIMAL ∨ dialect = Dialect.SQLITE_EXTENSIONS)
    (hty : fm.changes.type = some (fromTy, toTy))
    (hm : m ∈ diff.tables.modified)
    (hfm : fm ∈ m.fieldsModified)
    (hok : generateMigrationFromDiffParts diff targetModel dialect pf now = .ok parts) :
    generateAlterColumnSQLParts m.tableName fm.field fm.changes dialect pf now =
      .ok (rebuildStatements m.tableName fm.field toTy dialect now) ∧
    String.intercalate ("\n") (rebuildStatements m.tableName fm.field toTy dialect now) ∈ parts := by
  have hparts := @alterParts_sqlite_type_change m.tableName fm.field fm.changes dialect pf now
    fromTy toTy hd hty
  refine ⟨hparts, ?_⟩
  have halter : generateAlterColumnSQL m.tableName fm.field fm.changes dialect pf now =
      .ok (String.intercalate ("\n") (rebuildStatements m.tableName fm.field toTy dialect now)) := by
    unfold generateAlterColumnSQL
    rw [hparts]
  exact fromDiffParts_contains_alter hok hm hfm halter

/-- The C1 witness field modification: a number-to-string type change. -/
def c1FieldMod : FieldMod :=
  { field := { name := "age", type := "string" }
    changes := { type := some ("number", "string") } }

/-- The C1 witness table modification. -/
def c1Modification : TableModification :=
  { tableName := "people", fieldsAdded := [], fieldsRemoved := [],
    fieldsModified := [c1FieldMod], accessControlChanged := false }

/-- The C1 witness diff. -/
def c1Diff : DatabaseDiff :=
  { tables := { added := [], removed := [], modified := [c1Modification] }
    accessControl := { tables := [] } }

/-- The statement blocks of the C1 witness run. -/
def c1Parts : List String :=
  match generateMigrationFromDiffParts c1Diff usersModel Dialect.SQLITE_MINIMAL pfOk 0 with
  | .ok parts => parts
  | .error _ => []

/-- Witness for C1 at a concrete diff, dialect and clock value. -/
theorem type_change_sqlite_rebuild_witness :
    c1FieldMod.changes.type = some ("number", "string") ∧
    c1Modification ∈ c1Diff.tables.modified ∧
    c1FieldMod ∈ c1Modification.fieldsModified ∧
    generateMigrationFromDiffParts c1Diff usersModel Dialect.SQLITE_MINIMAL pfOk 0 = .ok c1Parts ∧
    (generateAlterColumnSQLParts c1Modification.tableName c1FieldMod.field c1FieldMod.changes
        Dialect.SQLITE_MINIMAL pfOk 0 =
      .ok (rebuildStatements c1Modification.tableName c1FieldMod.field ("string")
        Dialect.SQLITE_MINIMAL 0) ∧
     String.intercalate ("\n") (rebuildStatements c1Modification.tableName c1FieldMod.field
       "string" Dialect.SQLITE_MINIMAL 0) ∈ c1Parts) :=
  ⟨rfl, List.Mem.head _, List.Mem.head _, rfl,
    type_change_sqlite_rebuild c1Diff usersModel Dialect.SQLITE_MINIMAL pfOk 0
      c1Modification c1FieldMod ("number") "string" c1Parts (Or.inl rfl) rfl
      (List.Mem.head _) (List.Mem.head _) rfl⟩

/-! Claim C2. -/

/-- The SQL text of a synthesis result (the error message in the error case). -/
def sqlOf (r : Except String MigrationResult) : String :=
  match r with
  | .ok m => m.sql
  | .error e => e

/-- C2 counterexample: with equal explicit inputs (diff, target model,
dialect, compiler) but two different clock readings, `generateMigrationFromDiff`
returns different SQL texts — the rebuild's temporary column name embeds the
`Date.now()` reading, so the operation is not a function of its explicit
inputs alone. -/
theorem migration_determinism_counterexample :
    sqlOf (generateMigrationFromDiff c1Diff usersModel Dialect.SQLITE_MINIMAL pfOk 0) ≠
      sqlOf (generateMigrationFromDiff c1Diff usersModel Dialect.SQLITE_MINIMAL pfOk 1) := by
  decide

theorem alterParts_clock_indep {tableName : String} {field : Field} {changes : FieldChange}
    {dialect : Dialect} {pf : ParserFns} (n1 n2 : Nat)
    (h : changes.type = none ∨ dialect = Dialect.POSTGRESQL) :
    generateAlterColumnSQLParts tableName field changes dialect pf n1 =
      generateAlterColumnSQLParts tableName field changes dialect pf n2 := by
  unfold generateAlterColumnSQLParts
  rcases h with hty | rfl
  · rw [hty]
  · cases hty : changes.type with
    | none => rfl
    | some p =>
      obtain ⟨fromTy, toTy⟩ := p
      simp

theorem alterSQL_clock_indep {tableName : String} {field : Field} {changes : FieldChange}
    {dialect : Dialect} {pf : ParserFns} (n1 n2 : Nat)
    (h : changes.type = none ∨ dialect = Dialect.POSTGRESQL) :
    generateAlterColumnSQL tableName field changes dialect pf n1 =
      generateAlterColumnSQL tableName field changes dialect pf n2 := by
  unfold generateAlterColumnSQL
  rw [alterParts_clock_indep n1 n2 h]

theorem fieldModParts_clock_indep {tableName : String} {fm : FieldMod} {dialect : Dialect}
    {pf : ParserFns} (n1 n2 : Nat)
    (h : fm.changes.type = none ∨ dialect = Dialect.POSTGRESQL) :
    fieldModParts tableName fm dialect pf n1 = fieldModParts tableName fm dialect pf n2 := by
  unfold fieldModParts
  rw [alterSQL_clock_indep n1 n2 h]

theorem modificationParts_clock_indep {m : TableModification} {dialect : Dialect}
    {pf : ParserFns} (n1 n2 : Nat)
    (h : ∀ fm ∈ m.fieldsModified, fm.changes.type = none ∨ dialect = Dialect.POSTGRESQL) :
    modificationParts m dialect pf n1 = modificationParts m dialect pf n2 := by
  have heq : collectE (fun fmm => fieldModParts m.tableName fmm dialect pf n1) m.fieldsModified =
      collectE (fun fmm => fieldModParts m.tableName fmm dialect pf n2) m.fieldsModified :=
    collectE_congr (fun fm hfm => fieldModParts_clock_indep n1 n2 (h fm hfm))
  unfold modificationParts
  simp only [heq]

theorem fromDiffParts_clock_indep {diff : DatabaseDiff} {targetModel : DataModel}
    {dialect : Dialect} {pf : ParserFns} (n1 n2 : Nat)
    (h : dialect = Dialect.POSTGRESQL ∨
      ∀ m ∈ diff.tables.modified, ∀ fm ∈ m.fieldsModified, fm.changes.type = none) :
    generateMigrationFromDiffParts diff targetModel dialect pf n1 =
      generateMigrationFromDiffParts diff targetModel dialect pf n2 := by
  have hper : ∀ m ∈ diff.tables.modified,
      modificationParts m dialect pf n1 = modificationParts m dialect pf n2 := by
    intro m hm
    apply modificationParts_clock_indep
    intro fm hfm
    rcases h with rfl | h
    · exact Or.inr rfl
    · exact Or.inl (h m hm fm hfm)
  have heq : collectE (fun m => modificationParts m dialect pf n1) diff.tables.modified =
      collectE (fun m => modificationParts m dialect pf n2) diff.tables.modified :=
    collectE_congr hper
  unfold generateMigrationFromDiffParts
  simp only [heq]

/-- C2 amended: `generateDatabaseDiff` and `generateInitialMigration` read no
clock, and `generateMigrationFromDiff` is a deterministic function of its
explicit inputs and the clock reading; the output is independent of the
clock — hence determined by the explicit inputs alone — exactly when the
dialect is PostgreSQL or the diff contains no type change (otherwise the
rebuild's temporary column name embeds the reading). -/
theorem migration_clock_independence
    (diff : DatabaseDiff) (targetModel : DataModel) (dialect : Dialect) (pf : ParserFns)
    (n1 n2 : Nat)
    (h : dialect = Dialect.POSTGRESQL ∨
      ∀ m ∈ diff.tables.modified, ∀ fm ∈ m.fieldsModified, fm.changes.type = none) :
    generateMigrationFromDiff diff targetModel dialect pf n1 =
      generateMigrationFromDiff diff targetModel dialect pf n2 := by
  unfold generateMigrationFromDiff
  rw [fromDiffParts_clock_indep n1 n2 h]

/-- Witness for the amended C2 at a concrete diff on PostgreSQL with two
distinct clock readings. -/
theorem migration_clock_independence_witness :
    generateMigrationFromDiff c1Diff usersModel Dialect.POSTGRESQL pfOk 0 =
      generateMigrationFromDiff c1Diff usersModel Dialect.POSTGRESQL pfOk 1 :=
  migration_clock_independence c1Diff usersModel Dialect.POSTGRESQL pfOk 0 1 (Or.inl rfl)

/-! Claim C7. -/

/-- The zero-argument current-time call as authored in a schema document. -/
def nowExprLower : Jx := Jx.obj [("$func", Jx.obj [("now", Jx.arr [])])]

/-- The canonicalized form handed to the external compiler. -/
def nowExprUpper : Jx := Jx.obj [("$func", Jx.obj [("NOW", Jx.arr [])])]

theorem normalize_now_expr :
    normalizeExpression (Jx.obj [("$func", Jx.obj [("now", Jx.arr [])])]) = nowExprUpper := by
  unfold nowExprUpper
  simp [normalizeExpression, normalizeFuncObj, normalizeFuncEntries, normalizeJxList,
    hasFuncKey, normalizeFuncName]
  decide

/-- The C7 default-only change record: no old default, the lowercase
current-time call as the new default. -/
def c7Changes : FieldChange := { default := some (none, some nowExprLower) }

/-- The C7 field modification. -/
def c7FieldMod : FieldMod := { field := { name := "created_at", type := "datetime" }, changes := c7Changes }

/-- The C7 table modification. -/
def c7Modification : TableModification :=
  { tableName := "events", fieldsAdded := [], fieldsRemoved := [],
    fieldsModified := [c7FieldMod], accessControlChanged := false }

/-- The C7 diff. -/
def c7Diff : DatabaseDiff :=
  { tables := { added := [], removed := [], modified := [c7Modification] }
    accessControl := { tables := [] } }

/-- C7 counterexample: on the SQLITE_MINIMAL dialect the very same
default-only modification emits no statement at all — the synthesized SQL
text is empty, so no DEFAULT clause (with NOW or otherwise) is emitted. -/
theorem default_change_counterexample :
    sqlOf (generateMigrationFromDiff c7Diff usersModel Dialect.SQLITE_MINIMAL pfOk 0) = "" ∧
    generateAlterColumnSQLParts c7Modification.tableName c7FieldMod.field c7Changes
      Dialect.SQLITE_MINIMAL pfOk 0 = .ok [] := by
  exact ⟨rfl, rfl⟩

/-- C7 amended: on the PostgreSQL dialect, a field modification whose only
change is a default going from absent to the zero-argument current-time call
`{$func: {now: []}}` emits exactly one `SET DEFAULT` statement, whose default
expression is the compiler's rendering of the canonicalized (uppercased)
`{$func: {NOW: []}}` call; on the two SQLite dialects the same modification
emits no statement. -/
theorem default_change_now_uppercased
    (tableName : String) (field : Field) (pf : ParserFns) (now : Nat) (s : String)
    (hpf : pf.parseExpression nowExprUpper
        { rootTable := "", config := emptyConfig Dialect.POSTGRESQL } = .ok s) :
    generateAlterColumnSQLParts tableName field
        { default := some (none, some nowExprLower) } Dialect.POSTGRESQL pf now =
      .ok ["ALTER TABLE \"" ++ tableName ++ "\" ALTER COLUMN \"" ++ field.name ++
        "\" SET DEFAULT " ++ s ++ ";"] ∧
    (∀ dialect, dialect = Dialect.SQLITE_MINIMAL ∨ dialect = Dialect.SQLITE_EXTENSIONS →
      generateAlterColumnSQLParts tableName field
        { default := some (none, some nowExprLower) } dialect pf now = .ok []) := by
  constructor
  · have hfd : formatDefaultValue (some nowExprLower) Dialect.POSTGRESQL pf none = .ok s := by
      unfold formatDefaultValue nowExprLower
      dsimp only
      rw [normalize_now_expr, hpf]
      simp
    unfold generateAlterColumnSQLParts
    simp [hfd]
  · intro dialect hd
    rcases hd with rfl | rfl <;> rfl

/-- Witness for the amended C7: the compiler hypothesis holds for a concrete
compiler that renders the canonical call as `NOW()`. -/
theorem default_change_now_uppercased_witness :
    pfOk.parseExpression nowExprUpper
        { rootTable := "", config := emptyConfig Dialect.POSTGRESQL } = .ok ("NOW()") ∧
    (generateAlterColumnSQLParts ("events") { name := "created_at", type := "datetime" }
        { default := some (none, some nowExprLower) } Dialect.POSTGRESQL pfOk 0 =
      .ok ["ALTER TABLE \"" ++ "events" ++ "\" ALTER COLUMN \"" ++
        ({ name := "created_at", type := "datetime" : Field }).name ++
        "\" SET DEFAULT " ++ "NOW()" ++ ";"] ∧
     (∀ dialect, dialect = Dialect.SQLITE_MINIMAL ∨ dialect = Dialect.SQLITE_EXTENSIONS →
       generateAlterColumnSQLParts ("events") { name := "created_at", type := "datetime" }
         { default := some (none, some nowExprLower) } dialect pfOk 0 = .ok [])) :=
  ⟨rfl, default_change_now_uppercased ("events") { name := "created_at", type := "datetime" }
    pfOk 0 ("NOW()") rfl⟩

/-! Claim C3. -/

/-- C3 counterexample: bootstrapping a model containing table "users" with a
compiler whose condition compilation throws "boom" makes the operation fail
with exactly the raw message "boom": the propagated error is not wrapped and
identifies neither the table nor the field nor the operation. -/
theorem compiler_error_counterexample :
    generateInitialMigration usersModel Dialect.POSTGRESQL pfFail = .error ("boom") ∧
    charsHasSub ("users".data) ("boom".data) = false ∧
    charsHasSub ("Failed".data) ("boom".data) = false ∧
    charsHasSub ("read".data) ("boom".data) = false := by
  refine ⟨rfl, by decide, by decide, by decide⟩

/-- C3 amended: a compiler failure is fatal to the enclosing operation and no
partial SQL is returned; a failing default expression is propagated wrapped
with the fixed prefix "Failed to parse expression: " plus the compiler
message (naming no table or field), and a failing policy condition is
propagated as the bare compiler message (naming no table or operation). -/
theorem compiler_failure_propagation
    (dialect : Dialect) (pf : ParserFns) (kvs : List (String × Jx)) (e1 : String)
    (model : DataModel) (entry : ACTableChange) (condFrom toCond : Jx) (e2 : String)
    (hdef : pf.parseExpression (normalizeExpression (Jx.obj kvs))
        { rootTable := "", config := emptyConfig dialect } = .error e1)
    (hread : entry.changes.read = some (condFrom, toCond))
    (hcond : pf.parseCondition toCond
        { rootTable := entry.tableName,
          config := createParserConfig model Dialect.POSTGRESQL } = .error e2) :
    formatDefaultValue (some (Jx.obj kvs)) dialect pf none =
      .error ("Failed to parse expression: " ++ e1) ∧
    rlsForTable model pf entry = .error e2 ∧
    (∀ (dm : DataModel) (t : ACTableChange) (e : String) (r : MigrationResult),
       t ∈ (generateAccessControlDiffForFullMigration dm.tables).tables →
       rlsForTable dm pf t = .error e →
       generateInitialMigration dm Dialect.POSTGRESQL pf ≠ .ok r) := by
  refine ⟨?_, ?_, ?_⟩
  · unfold formatDefaultValue
    dsimp only
    rw [hdef]
  · unfold rlsForTable policyPart
    rw [hread]
    dsimp only
    rw [hcond]
  · intro dm t e r hmem herr hok
    unfold generateInitialMigration at hok
    cases hp : generateInitialMigrationParts dm Dialect.POSTGRESQL pf with
    | error e' => rw [hp] at hok; simp at hok
    | ok pa =>
      unfold generateInitialMigrationParts at hp
      cases hc : collectE (fun tb => generateCreateTableSQL tb Dialect.POSTGRESQL pf)
          dm.tables with
      | error e' => rw [hc] at hp; simp at hp
      | ok createParts =>
        rw [hc] at hp
        simp only [if_pos rfl] at hp
        unfold generateRLSPoliciesSQL at hp
        cases hr : collectE (rlsForTable dm pf)
            (generateAccessControlDiffForFullMigration dm.tables).tables with
        | error e' => rw [hr] at hp; simp at hp
        | ok lists =>
          obtain ⟨lst, hlst, _⟩ := collectE_ok_mem hr hmem
          rw [herr] at hlst
          simp at hlst

/-- The C3 witness access-control entry (the bootstrap entry of "users"). -/
def c3Entry : ACTableChange :=
  { tableName := "users"
    changes :=
      { read := some (Jx.bool true, Jx.bool true)
        create := some (Jx.bool true, Jx.bool true)
        update := some (Jx.bool true, Jx.bool true)
        delete := some (Jx.bool true, Jx.bool true) } }

/-- Witness for the amended C3 with the always-failing compiler. -/
theorem compiler_failure_propagation_witness :
    pfFail.parseExpression
        (normalizeExpression (Jx.obj [("$func", Jx.obj [("now", Jx.arr [])])]))
        { rootTable := "", config := emptyConfig Dialect.POSTGRESQL } = .error ("boom") ∧
    c3Entry.changes.read = some (Jx.bool true, Jx.bool true) ∧
    pfFail.parseCondition (Jx.bool true)
        { rootTable := c3Entry.tableName,
          config := createParserConfig usersModel Dialect.POSTGRESQL } = .error ("boom") ∧
    (formatDefaultValue (some (Jx.obj [("$func", Jx.obj [("now", Jx.arr [])])]))
        Dialect.POSTGRESQL pfFail none =
      .error ("Failed to parse expression: " ++ "boom") ∧
     rlsForTable usersModel pfFail c3Entry = .error ("boom") ∧
     (∀ (dm : DataModel) (t : ACTableChange) (e : String) (r : MigrationResult),
        t ∈ (generateAccessControlDiffForFullMigration dm.tables).tables →
        rlsForTable dm pfFail t = .error e →
        generateInitialMigration dm Dialect.POSTGRESQL pfFail ≠ .ok r)) :=
  ⟨rfl, rfl, rfl,
    compiler_failure_propagation Dialect.POSTGRESQL pfFail
      [("$func", Jx.obj [("now", Jx.arr [])])] "boom" usersModel c3Entry
      (Jx.bool true) (Jx.bool true) "boom" rfl rfl rfl⟩

/-! Claim C6. -/

/-- The bootstrap access-control entry of one table: every operation changes
from the permissive default to the declared condition. -/
def fullACEntry (table : Table) : ACTableChange :=
  { tableName := table.name
    changes :=
      { read := some (defaultCondition, table.accessControl.read)
        create := some (defaultCondition, table.accessControl.create)
        update := some (defaultCondition, table.accessControl.update)
        delete := some (defaultCondition, table.accessControl.delete) } }

theorem fullACDiff_eq_map (tables : List Table) :
    (generateAccessControlDiffForFullMigration tables).tables = tables.map fullACEntry := rfl

theorem createTableSQL_pg_shape {t : Table} {pf : ParserFns} {s : String}
    (h : generateCreateTableSQL t Dialect.POSTGRESQL pf = .ok s) :
    ∃ pre, s = pre ++ "\n\nALTER TABLE \"" ++ t.name ++ "\" ENABLE ROW LEVEL SECURITY;" := by
  unfold generateCreateTableSQL at h
  cases hc : collectE (fun f =>
      match fieldColumnParts f Dialect.POSTGRESQL pf with
      | .error e => .error e
      | .ok parts => .ok ("  " ++ String.intercalate (" ") parts)) t.fields with
  | error e => rw [hc] at h; simp at h
  | ok columns =>
    rw [hc] at h
    dsimp only at h
    rw [if_pos rfl] at h
    injection h with h
    exact ⟨_, h.symm⟩

theorem rlsForTable_full_shape {model : DataModel} {pf : ParserFns} {t : Table}
    {lst : List String}
    (h : rlsForTable model pf (fullACEntry t) = .ok lst) :
    ∃ c1 c2 c3 c4,
      lst = ["DROP POLICY IF EXISTS \"" ++ t.name ++ "_read_policy\" ON \"" ++ t.name ++ "\";",
        "DROP POLICY IF EXISTS \"" ++ t.name ++ "_create_policy\" ON \"" ++ t.name ++ "\";",
        "DROP POLICY IF EXISTS \"" ++ t.name ++ "_update_policy\" ON \"" ++ t.name ++ "\";",
        "DROP POLICY IF EXISTS \"" ++ t.name ++ "_delete_policy\" ON \"" ++ t.name ++ "\";",
        "CREATE POLICY \"" ++ t.name ++ "_read_policy\" ON \"" ++ t.name ++
          "\" FOR SELECT USING (" ++ c1 ++ ");",
        "CREATE POLICY \"" ++ t.name ++ "_create_policy\" ON \"" ++ t.name ++
          "\" FOR INSERT WITH CHECK (" ++ c2 ++ ");",
        "CREATE POLICY \"" ++ t.name ++ "_update_policy\" ON \"" ++ t.name ++
          "\" FOR UPDATE USING (" ++ c3 ++ ");",
        "CREATE POLICY \"" ++ t.name ++ "_delete_policy\" ON \"" ++ t.name ++
          "\" FOR DELETE USING (" ++ c4 ++ ");"] := by
  unfold rlsForTable policyPart fullACEntry at h
  dsimp only at h
  cases h1 : pf.parseCondition t.accessControl.read
      { rootTable := t.name, config := createParserConfig model Dialect.POSTGRESQL } with
  | error e => rw [h1] at h; simp at h
  | ok c1 =>
    rw [h1] at h
    cases h2 : pf.parseCondition t.accessControl.create
        { rootTable := t.name, config := createParserConfig model Dialect.POSTGRESQL } with
    | error e => rw [h2] at h; simp at h
    | ok c2 =>
      rw [h2] at h
      cases h3 : pf.parseCondition t.accessControl.update
          { rootTable := t.name, config := createParserConfig model Dialect.POSTGRESQL } with
      | error e => rw [h3] at h; simp at h
      | ok c3 =>
        rw [h3] at h
        cases h4 : pf.parseCondition t.accessControl.delete
            { rootTable := t.name, config := createParserConfig model Dialect.POSTGRESQL } with
        | error e => rw [h4] at h; simp at h
        | ok c4 =>
          rw [h4] at h
          injection h with h
          refine ⟨c1, c2, c3, c4, ?_⟩
          rw [← h]
          simp [String.append_assoc]

/-- C6: bootstrapping any model on PostgreSQL emits, for every table, a
create-table block ending in the `ENABLE ROW LEVEL SECURITY` statement, the
four unconditional `DROP POLICY IF EXISTS` statements, and four
`CREATE POLICY` statements (one per operation — at bootstrap all four count
as changed from the permissive default), even though no prior snapshot
exists. -/
theorem initial_migration_postgres_policy_block
    (model : DataModel) (pf : ParserFns) (res : List String × AccessControlDiff)
    (hok : generateInitialMigrationParts model Dialect.POSTGRESQL pf = .ok res)
    (t : Table) (ht : t ∈ model.tables) :
    (∃ s, generateCreateTableSQL t Dialect.POSTGRESQL pf = .ok s ∧ s ∈ res.1 ∧
       ∃ pre, s = pre ++ "\n\nALTER TABLE \"" ++ t.name ++ "\" ENABLE ROW LEVEL SECURITY;") ∧
    (("DROP POLICY IF EXISTS \"" ++ t.name ++ "_read_policy\" ON \"" ++ t.name ++ "\";") ∈ res.1 ∧
     ("DROP POLICY IF EXISTS \"" ++ t.name ++ "_create_policy\" ON \"" ++ t.name ++ "\";") ∈ res.1 ∧
     ("DROP POLICY IF EXISTS \"" ++ t.name ++ "_update_policy\" ON \"" ++ t.name ++ "\";") ∈ res.1 ∧
     ("DROP POLICY IF EXISTS \"" ++ t.name ++ "_delete_policy\" ON \"" ++ t.name ++ "\";") ∈ res.1) ∧
    (∃ c1 c2 c3 c4,
      ("CREATE POLICY \"" ++ t.name ++ "_read_policy\" ON \"" ++ t.name ++
        "\" FOR SELECT USING (" ++ c1 ++ ");") ∈ res.1 ∧
      ("CREATE POLICY \"" ++ t.name ++ "_create_policy\" ON \"" ++ t.name ++
        "\" FOR INSERT WITH CHECK (" ++ c2 ++ ");") ∈ res.1 ∧
      ("CREATE POLICY \"" ++ t.name ++ "_update_policy\" ON \"" ++ t.name ++
        "\" FOR UPDATE USING (" ++ c3 ++ ");") ∈ res.1 ∧
      ("CREATE POLICY \"" ++ t.name ++ "_delete_policy\" ON \"" ++ t.name ++
        "\" FOR DELETE USING (" ++ c4 ++ ");") ∈ res.1) := by
  unfold generateInitialMigrationParts at hok
  cases hc : collectE (fun tb => generateCreateTableSQL tb Dialect.POSTGRESQL pf)
      model.tables with
  | error e => rw [hc] at hok; simp at hok
  | ok createParts =>
    rw [hc] at hok
    simp only [if_pos rfl] at hok
    unfold generateRLSPoliciesSQL at hok
    cases hr : collectE (rlsForTable model pf)
        (generateAccessControlDiffForFullMigration model.tables).tables with
    | error e => rw [hr] at hok; simp at hok
    | ok lists =>
      rw [hr] at hok
      injection hok with hok
      subst hok
      have hmemAC : fullACEntry t ∈
          (generateAccessControlDiffForFullMigration model.tables).tables := by
        rw [fullACDiff_eq_map]
        exact List.mem_map.mpr ⟨t, ht, rfl⟩
      obtain ⟨lst, hlst, hlstmem⟩ := collectE_ok_mem hr hmemAC
      obtain ⟨c1, c2, c3, c4, hshape⟩ := rlsForTable_full_shape hlst
      have hflat : ∀ x ∈ lst, x ∈ (createParts ++ initialForeignKeyParts model
          Dialect.POSTGRESQL ++ lists.flatten : List String) := by
        intro x hx
        apply List.mem_append_right
        rw [List.mem_flatten]
        exact ⟨lst, hlstmem, hx⟩
      refine ⟨?_, ⟨?_, ?_, ?_, ?_⟩, c1, c2, c3, c4, ?_, ?_, ?_, ?_⟩
      · obtain ⟨s, hs, hsmem⟩ := collectE_ok_mem hc ht
        exact ⟨s, hs, List.mem_append_left _ (List.mem_append_left _ hsmem),
          createTableSQL_pg_shape hs⟩
      · exact hflat _ (by rw [hshape]; simp)
      · exact hflat _ (by rw [hshape]; simp)
      · exact hflat _ (by rw [hshape]; simp)
      · exact hflat _ (by rw [hshape]; simp)
      · exact hflat _ (by rw [hshape]; simp)
      · exact hflat _ (by rw [hshape]; simp)
      · exact hflat _ (by rw [hshape]; simp)
      · exact hflat _ (by rw [hshape]; simp)

/-- The result of the C6 witness run. -/
def c6Result : List String × AccessControlDiff :=
  match generateInitialMigrationParts usersModel Dialect.POSTGRESQL pfOk with
  | .ok res => res
  | .error _ => ([], { tables := [] })

/-- Witness for C6 at the concrete users model and succeeding compiler. -/
theorem initial_migration_postgres_policy_block_witness :
    generateInitialMigrationParts usersModel Dialect.POSTGRESQL pfOk = .ok c6Result ∧
    usersTable ∈ usersModel.tables ∧
    ((∃ s, generateCreateTableSQL usersTable Dialect.POSTGRESQL pfOk = .ok s ∧ s ∈ c6Result.1 ∧
       ∃ pre, s = pre ++ "\n\nALTER TABLE \"" ++ usersTable.name ++
         "\" ENABLE ROW LEVEL SECURITY;") ∧
     (("DROP POLICY IF EXISTS \"" ++ usersTable.name ++ "_read_policy\" ON \"" ++
         usersTable.name ++ "\";") ∈ c6Result.1 ∧
      ("DROP POLICY IF EXISTS \"" ++ usersTable.name ++ "_create_policy\" ON \"" ++
         usersTable.name ++ "\";") ∈ c6Result.1 ∧
      ("DROP POLICY IF EXISTS \"" ++ usersTable.name ++ "_update_policy\" ON \"" ++
         usersTable.name ++ "\";") ∈ c6Result.1 ∧
      ("DROP POLICY IF EXISTS \"" ++ usersTable.name ++ "_delete_policy\" ON \"" ++
         usersTable.name ++ "\";") ∈ c6Result.1) ∧
     (∃ c1 c2 c3 c4,
       ("CREATE POLICY \"" ++ usersTable.name ++ "_read_policy\" ON \"" ++ usersTable.name ++
         "\" FOR SELECT USING (" ++ c1 ++ ");") ∈ c6Result.1 ∧
       ("CREATE POLICY \"" ++ usersTable.name ++ "_create_policy\" ON \"" ++ usersTable.name ++
         "\" FOR INSERT WITH CHECK (" ++ c2 ++ ");") ∈ c6Result.1 ∧
       ("CREATE POLICY \"" ++ usersTable.name ++ "_update_policy\" ON \"" ++ usersTable.name ++
         "\" FOR UPDATE USING (" ++ c3 ++ ");") ∈ c6Result.1 ∧
       ("CREATE POLICY \"" ++ usersTable.name ++ "_delete_policy\" ON \"" ++ usersTable.name ++
         "\" FOR DELETE USING (" ++ c4 ++ ");") ∈ c6Result.1)) :=
  ⟨rfl, List.Mem.head _,
    initial_migration_postgres_policy_block usersModel pfOk c6Result rfl usersTable
      (List.Mem.head _)⟩

end Migration
